import Mathlib

/-!
Verification of the data-to-chart transformation pipeline of the PoPART-IBM
dashboard (`popart_dashboard.py`).

The dashboard loads a CSV result table, filters it by an inclusive year range,
computes headline metrics (max incidence / PLHIV / population with rounding or
integer truncation), reshapes wide indicator columns into long form for
multi-series charts, and lists the available `.csv` files of a directory.

Shallow embedding conventions:

* A pandas `DataFrame` row is modelled as a valuation of column names,
  `Row := String → Rat`; a table is an ordered list of rows.  Numeric cell
  values (floats and integer counts alike) are modelled as rationals.
* `Series.max()` over an empty column has no numeric value in pandas (it
  yields `NaN`, which is not a number and poisons every further computation);
  the embedding makes this failure explicit with `Except`, the error case
  standing for the spec's `EmptyRangeError`.
* `round(x, 2)` is Python's builtin round: round half to even at two decimal
  places.  `.astype(int)` is numpy's truncation toward zero.
* Chart construction, colors and widget wiring are presentation-only and are
  not part of any claim; only the data transformations are embedded.
-/

/-- A row of a loaded result table: a valuation assigning to each column name
the numeric value of that cell (line 99 of `popart_dashboard.py` reads the CSV
into `df`). -/
abbrev Row := String → Rat

/-- A result table: an ordered sequence of rows. -/
abbrev Table := List Row

/-- Line 106: `df_plot = df[(df.Year>=year_range[0]) & (df.Year<=year_range[1])]`.
The boolean-mask selection keeps, in their original order, exactly the rows
whose `Year` lies in the inclusive range `[lo, hi]`. -/
def df_plot (df : Table) (lo hi : Int) : Table :=
  df.filter (fun r => decide ((lo : Rat) ≤ r "Year") && decide (r "Year" ≤ (hi : Rat)))

/-- Range-filter errors named by the specification (§4.1, §7). -/
inductive RangeError where
  | invalidRange
deriving DecidableEq

/-- Modelled from the spec (§4.1): the defensive Range Filter contract, which
"fails with `InvalidRangeError`" whenever `range.lo > range.hi` and otherwise
returns the boolean-mask subtable.  The source (line 106) has no such error
path; this definition follows the spec's words and exists only to be compared
against `df_plot`. -/
def filter_spec (df : Table) (lo hi : Int) : Except RangeError Table :=
  if lo > hi then .error .invalidRange
  else .ok (df.filter (fun r => decide ((lo : Rat) ≤ r "Year") && decide (r "Year" ≤ (hi : Rat))))

/-- A concrete two-row table used to instantiate theorems: the scenario table
of spec §8, rows `(Year=2025, Incidence=0.012, NumberPositive=500,
TotalPopulation=10000)` and `(Year=2030, Incidence=0.015, NumberPositive=600,
TotalPopulation=11000)`. -/
def row2025 : Row := fun c =>
  if c = "Year" then 2025
  else if c = "Incidence" then 12/1000
  else if c = "NumberPositive" then 500
  else if c = "TotalPopulation" then 10000
  else 0

/-- Second row of the scenario table of spec §8. -/
def row2030 : Row := fun c =>
  if c = "Year" then 2030
  else if c = "Incidence" then 15/1000
  else if c = "NumberPositive" then 600
  else if c = "TotalPopulation" then 11000
  else 0

/-- The scenario table of spec §8. -/
def scenarioTable : Table := [row2025, row2030]

/-- Claim C2: every row of `df_plot df lo hi` satisfies the inclusive year
bound, every row of `df` satisfying the bound appears in the output, and the
output is a sublist of `df` (order-preserving, lossless within the bound). -/
theorem df_plot_sound_complete_ordered (df : Table) (lo hi : Int) :
    (∀ r ∈ df_plot df lo hi, (lo : Rat) ≤ r "Year" ∧ r "Year" ≤ (hi : Rat)) ∧
    (∀ r ∈ df, ((lo : Rat) ≤ r "Year" ∧ r "Year" ≤ (hi : Rat)) → r ∈ df_plot df lo hi) ∧
    (df_plot df lo hi).Sublist df := by
  refine ⟨?_, ?_, List.filter_sublist df⟩
  · intro r hr
    rw [df_plot, List.mem_filter] at hr
    simpa using hr.2
  · intro r hr hbound
    rw [df_plot, List.mem_filter]
    exact ⟨hr, by simpa using hbound⟩

/-- Witness for C2 at the concrete scenario table and range `[2020, 2030]`. -/
theorem df_plot_sound_complete_ordered_witness :
    ((2020 : Rat) ≤ row2025 "Year" ∧ row2025 "Year" ≤ (2030 : Rat)) ∧
    row2025 ∈ df_plot scenarioTable 2020 2030 := by
  have h := (df_plot_sound_complete_ordered scenarioTable 2020 2030).2.1 row2025
    (by simp [scenarioTable]) (by decide)
  exact ⟨by decide, h⟩

/-- Claim C7 counterexample: with `lo = 2030 > hi = 1970` the source filter
does not fail; it returns (normally) the empty table, while the spec's
defensive contract would demand `InvalidRangeError`. -/
theorem df_plot_invalid_range_returns_table :
    df_plot scenarioTable 2030 1970 = [] ∧
    filter_spec scenarioTable 2030 1970 = .error .invalidRange := by
  constructor
  · rfl
  · rfl

/-- Claim C7 (amended): for every table and every range with `lo > hi`, the
source filter returns the empty table (the conjunctive year bound is
unsatisfiable), rather than failing with an error. -/
theorem df_plot_invalid_range_empty (df : Table) (lo hi : Int) (h : hi < lo) :
    df_plot df lo hi = [] := by
  rw [df_plot, List.filter_eq_nil_iff]
  intro r _
  simp only [Bool.and_eq_true, decide_eq_true_eq, not_and]
  intro hlo hhi
  have : (hi : Rat) < (lo : Rat) := by exact_mod_cast h
  linarith

/-- Witness for the amended C7 at a concrete table and inverted range. -/
theorem df_plot_invalid_range_empty_witness :
    (1970 : Int) < 2030 ∧ df_plot scenarioTable 2030 1970 = [] :=
  ⟨by decide, df_plot_invalid_range_empty scenarioTable 2030 1970 (by decide)⟩

/-- Claim C8: the range filter is idempotent — filtering the filtered table
again with the same bound yields the same table. -/
theorem df_plot_idempotent (df : Table) (lo hi : Int) :
    df_plot (df_plot df lo hi) lo hi = df_plot df lo hi := by
  rw [df_plot, df_plot, List.filter_filter]
  congr 1
  funext r
  rw [Bool.and_self]

/-- Floor of a rational, computed from its normalised numerator and
denominator (Euclidean division by the positive denominator). -/
def ratFloor (q : Rat) : Int := q.num / (q.den : Int)

/-- Python's builtin `round` to the nearest integer: round half to even. -/
def roundHalfEven (q : Rat) : Int :=
  if q - (ratFloor q : Rat) < 1/2 then ratFloor q
  else if 1/2 < q - (ratFloor q : Rat) then ratFloor q + 1
  else if ratFloor q % 2 = 0 then ratFloor q else ratFloor q + 1

/-- Python's `round(x, 2)`: round half to even at two decimal places. -/
def round2 (q : Rat) : Rat := ((roundHalfEven (q * 100) : Int) : Rat) / 100

/-- numpy's `.astype(int)` on a numeric scalar: truncation toward zero. -/
def truncToInt (q : Rat) : Int := if 0 ≤ q then ratFloor q else -(ratFloor (-q))

/-- pandas `Series.max()`: the maximum of a column.  Over an empty column
pandas has no numeric value (it yields `NaN`); the embedding returns `none`
in that case. -/
def seriesMax : List Rat → Option Rat
  | [] => none
  | a :: as => some (as.foldl max a)

/-- Column projection: the sequence of values of column `c`, in row order. -/
def col (df : Table) (c : String) : List Rat := df.map (fun r => r c)

/-- Metric errors named by the specification (§4.2, §7): requesting a `max`
metric over an empty subtable is undefined. -/
inductive MetricError where
  | emptyRange
deriving DecidableEq

instance {ε α : Type} [DecidableEq ε] [DecidableEq α] : DecidableEq (Except ε α) :=
  fun a b =>
    match a, b with
    | .ok x, .ok y =>
        if h : x = y then .isTrue (by rw [h]) else .isFalse (fun hc => h (Except.ok.inj hc))
    | .error x, .error y =>
        if h : x = y then .isTrue (by rw [h]) else .isFalse (fun hc => h (Except.error.inj hc))
    | .ok _, .error _ => .isFalse (fun hc => Except.noConfusion hc)
    | .error _, .ok _ => .isFalse (fun hc => Except.noConfusion hc)

/-- Line 112: `inc_inside = round(df_plot.Incidence.max()*100, 2)`.  On an
empty subtable the max is undefined (`EmptyRangeError`). -/
def inc_inside (dfp : Table) : Except MetricError Rat :=
  match seriesMax (col dfp "Incidence") with
  | none => .error .emptyRange
  | some m => .ok (round2 (m * 100))

/-- Line 113: `plhiv_inside = df_plot.NumberPositive.max().astype(int)`. -/
def plhiv_inside (dfp : Table) : Except MetricError Int :=
  match seriesMax (col dfp "NumberPositive") with
  | none => .error .emptyRange
  | some m => .ok (truncToInt m)

/-- Line 114: `pop_inside = df_plot.TotalPopulation.max().astype(int)`. -/
def pop_inside (dfp : Table) : Except MetricError Int :=
  match seriesMax (col dfp "TotalPopulation") with
  | none => .error .emptyRange
  | some m => .ok (truncToInt m)

/-- Line 122: `inc_outside = round(df_outside.Incidence.max()*100, 2)`. -/
def inc_outside (dfo : Table) : Except MetricError Rat :=
  match seriesMax (col dfo "Incidence") with
  | none => .error .emptyRange
  | some m => .ok (round2 (m * 100))

/-- Line 123: `plhiv_outside = df_outside.NumberPositive.max().astype(int)`. -/
def plhiv_outside (dfo : Table) : Except MetricError Int :=
  match seriesMax (col dfo "NumberPositive") with
  | none => .error .emptyRange
  | some m => .ok (truncToInt m)

/-- Line 124: `pop_outside = df_outside.TotalPopulation.max().astype(int)`. -/
def pop_outside (dfo : Table) : Except MetricError Int :=
  match seriesMax (col dfo "TotalPopulation") with
  | none => .error .emptyRange
  | some m => .ok (truncToInt m)

/-- Line 126: `delta = round(inc_outside - inc_inside, 2)`.  Defined whenever
both operand metrics are defined; otherwise the first failure propagates. -/
def inc_delta (dfo dfi : Table) : Except MetricError Rat :=
  match inc_outside dfo, inc_inside dfi with
  | .ok o, .ok i => .ok (round2 (o - i))
  | .error e, _ => .error e
  | .ok _, .error e => .error e

/-- Line 127: `delta = int(plhiv_outside - plhiv_inside)` (both operands are
already integers, so `int` is the identity). -/
def plhiv_delta (dfo dfi : Table) : Except MetricError Int :=
  match plhiv_outside dfo, plhiv_inside dfi with
  | .ok o, .ok i => .ok (o - i)
  | .error e, _ => .error e
  | .ok _, .error e => .error e

/-- Line 128: `delta = int(pop_outside - pop_inside)`. -/
def pop_delta (dfo dfi : Table) : Except MetricError Int :=
  match pop_outside dfo, pop_inside dfi with
  | .ok o, .ok i => .ok (o - i)
  | .error e, _ => .error e
  | .ok _, .error e => .error e

lemma ratFloor_intCast (n : Int) : ratFloor (n : Rat) = n := by
  rw [ratFloor, Rat.num_intCast, Rat.den_intCast]
  simp

lemma roundHalfEven_intCast (n : Int) : roundHalfEven (n : Rat) = n := by
  rw [roundHalfEven, ratFloor_intCast]
  norm_num

lemma round2_centi (k : Int) : round2 ((k : Rat) / 100) = (k : Rat) / 100 := by
  have h : ((k : Rat) / 100) * 100 = (k : Rat) := by
    field_simp
  rw [round2, h, roundHalfEven_intCast]

lemma round2_sub_round2 (a b : Rat) :
    round2 (round2 a - round2 b) = round2 a - round2 b := by
  have h : round2 a - round2 b
      = ((roundHalfEven (a * 100) - roundHalfEven (b * 100) : Int) : Rat) / 100 := by
    rw [round2, round2]
    push_cast
    ring
  rw [h, round2_centi]

lemma seriesMax_of_ne_nil (df : Table) (c : String) (h : df ≠ []) :
    ∃ m, seriesMax (col df c) = some m := by
  cases df with
  | nil => exact absurd rfl h
  | cons r rs => exact ⟨_, rfl⟩

/-- Claim C3: whenever the filtered subtable is empty, each of the three
headline metrics is an `EmptyRangeError` rather than a value. -/
theorem metrics_empty_range (df : Table) (lo hi : Int)
    (h : df_plot df lo hi = []) :
    inc_inside (df_plot df lo hi) = .error .emptyRange ∧
    plhiv_inside (df_plot df lo hi) = .error .emptyRange ∧
    pop_inside (df_plot df lo hi) = .error .emptyRange := by
  rw [h]
  exact ⟨rfl, rfl, rfl⟩

/-- Witness for C3: the two-row scenario table filtered to `[2026, 2029]` has
no rows, and each metric fails with `EmptyRangeError`. -/
theorem metrics_empty_range_witness :
    df_plot scenarioTable 2026 2029 = [] ∧
    inc_inside (df_plot scenarioTable 2026 2029) = .error .emptyRange ∧
    plhiv_inside (df_plot scenarioTable 2026 2029) = .error .emptyRange ∧
    pop_inside (df_plot scenarioTable 2026 2029) = .error .emptyRange :=
  ⟨rfl, metrics_empty_range scenarioTable 2026 2029 rfl⟩

/-- Claim C6: on the scenario table filtered to `[2020, 2030]`, the metrics
are exactly `Incidence% = 1.5`, `PLHIV = 600`, `Pop = 11000`. -/
theorem scenario_metrics :
    inc_inside (df_plot scenarioTable 2020 2030) = .ok (3 / 2) ∧
    plhiv_inside (df_plot scenarioTable 2020 2030) = .ok 600 ∧
    pop_inside (df_plot scenarioTable 2020 2030) = .ok 11000 := by
  have hdf : df_plot scenarioTable 2020 2030 = scenarioTable := rfl
  refine ⟨?_, rfl, rfl⟩
  rw [hdf]
  have hcol : col scenarioTable "Incidence" = [12/1000, 15/1000] := rfl
  have hmax : (12/1000 : Rat) ⊔ (15/1000) = 15/1000 := max_eq_right (by norm_num)
  have hs : seriesMax (col scenarioTable "Incidence") = some (15/1000) := by
    rw [hcol]
    simp only [seriesMax, List.foldl_cons, List.foldl_nil]
    rw [hmax]
  rw [inc_inside, hs]
  show Except.ok (round2 (15/1000 * 100)) = Except.ok (3/2)
  have h1 : (15/1000 : Rat) * 100 = 3/2 := by norm_num
  have h2 : (3/2 : Rat) * 100 = ((150 : Int) : Rat) := by norm_num
  rw [h1, round2, h2, roundHalfEven_intCast]
  norm_num

/-- Claim C5: deltas are antisymmetric — for non-empty tables `A`, `B`, if the
summarizer over the pair `(A, B)` yields delta `d` for a metric, the pair
`(B, A)` yields `-d` for that metric (the incidence delta is re-rounded, but
rounding a difference of already-rounded centesimal values is the identity). -/
theorem delta_antisymmetric (A B : Table) (hA : A ≠ []) (hB : B ≠ []) :
    ∃ d : Rat, ∃ p q : Int,
      inc_delta A B = .ok d ∧ inc_delta B A = .ok (-d) ∧
      plhiv_delta A B = .ok p ∧ plhiv_delta B A = .ok (-p) ∧
      pop_delta A B = .ok q ∧ pop_delta B A = .ok (-q) := by
  obtain ⟨ia, hia⟩ := seriesMax_of_ne_nil A "Incidence" hA
  obtain ⟨ib, hib⟩ := seriesMax_of_ne_nil B "Incidence" hB
  obtain ⟨pa, hpa⟩ := seriesMax_of_ne_nil A "NumberPositive" hA
  obtain ⟨pb, hpb⟩ := seriesMax_of_ne_nil B "NumberPositive" hB
  obtain ⟨qa, hqa⟩ := seriesMax_of_ne_nil A "TotalPopulation" hA
  obtain ⟨qb, hqb⟩ := seriesMax_of_ne_nil B "TotalPopulation" hB
  refine ⟨round2 (ia * 100) - round2 (ib * 100),
          truncToInt pa - truncToInt pb, truncToInt qa - truncToInt qb,
          ?_, ?_, ?_, ?_, ?_, ?_⟩
  · simp [inc_delta, inc_outside, inc_inside, hia, hib, round2_sub_round2]
  · simp only [inc_delta, inc_outside, inc_inside, hia, hib, round2_sub_round2]
    rw [neg_sub]
  · simp [plhiv_delta, plhiv_outside, plhiv_inside, hpa, hpb]
  · simp only [plhiv_delta, plhiv_outside, plhiv_inside, hpa, hpb]
    rw [neg_sub]
  · simp [pop_delta, pop_outside, pop_inside, hqa, hqb]
  · simp only [pop_delta, pop_outside, pop_inside, hqa, hqb]
    rw [neg_sub]

/-- Witness for C5 at two concrete non-empty tables. -/
theorem delta_antisymmetric_witness :
    scenarioTable ≠ [] ∧ [row2030] ≠ [] ∧
    (∃ d : Rat, ∃ p q : Int,
      inc_delta scenarioTable [row2030] = .ok d ∧
      inc_delta [row2030] scenarioTable = .ok (-d) ∧
      plhiv_delta scenarioTable [row2030] = .ok p ∧
      plhiv_delta [row2030] scenarioTable = .ok (-p) ∧
      pop_delta scenarioTable [row2030] = .ok q ∧
      pop_delta [row2030] scenarioTable = .ok (-q)) :=
  ⟨by simp [scenarioTable], by simp,
    delta_antisymmetric scenarioTable [row2030] (by simp [scenarioTable]) (by simp)⟩

/-- A long-form row produced by `DataFrame.melt`: the kept id column `x`, the
melted column's name (after recoding, its display label) in `var`, and the
cell value in `value`.  The `value_name`/`var_name` arguments of the source
only name these output columns, which the embedding fixes as fields. -/
structure LongRow where
  x : Rat
  var : String
  value : Rat
deriving DecidableEq

/-- Lines 149-152 (also line 201): `data[[x]+y].melt(x, value_name=..., var_name=...)`.
pandas melt stacks one block per value column, in the order of `y`, each block
listing the rows of `data` in their original order. -/
def melt (data : Table) (x : String) (y : List String) : List LongRow :=
  (y.map (fun c => data.map (fun r => ⟨r x, c, r c⟩))).flatten

/-- Application of a Python dict (an association list) to one value, as pandas
`Series.replace` does: exact whole-value lookup, values absent from the dict
unchanged.  (Python's `dict(zip(y, codes))` keeps the last binding of a
duplicated key while `List.lookup` keeps the first; under the `Nodup`
hypotheses used below the two coincide.) -/
def replaceDict (m : List (String × String)) (s : String) : String :=
  match m.lookup s with
  | some t => t
  | none => s

/-- Line 155 (also lines 205-208): `df_melt[var_name].replace(dict(zip(y, codes)), inplace=True)` —
recode every melted column name through the dict. -/
def recode (m : List (String × String)) (rows : List LongRow) : List LongRow :=
  rows.map (fun lr => { lr with var := replaceDict m lr.var })

/-- Lines 148-155: the data transformation of `add_multiple_line_chart` — melt
the columns `y` keeping `x`, then recode the melted names through
`dict(zip(y, codes))`.  The chart encodings and `line_color` are
presentation-only and not embedded. -/
def add_multiple_line_chart (data : Table) (x : String) (y : List String)
    (codes : List String) : List LongRow :=
  recode (y.zip codes) (melt data x y)

/-- Lines 200-208: the community-demographics reshape `df_pop` with its
explicit recoding dict. -/
def df_pop (dfp : Table) : List LongRow :=
  recode [("TotalPopulation", "Total"), ("PopulationF", "Female"), ("PopulationM", "Male")]
    (melt dfp "Year" ["TotalPopulation", "PopulationF", "PopulationM"])

lemma replaceDict_head (c l : String) (m : List (String × String)) :
    replaceDict ((c, l) :: m) c = l := by
  simp [replaceDict, List.lookup_cons]

lemma replaceDict_tail (c l s : String) (m : List (String × String)) (h : s ≠ c) :
    replaceDict ((c, l) :: m) s = replaceDict m s := by
  have hb : (s == c) = false := beq_eq_false_iff_ne.mpr h
  simp [replaceDict, List.lookup_cons, hb]

lemma add_multiple_blocks (data : Table) (x : String) (y codes : List String) :
    add_multiple_line_chart data x y codes
      = y.flatMap (fun c => data.map (fun r => ⟨r x, replaceDict (y.zip codes) c, r c⟩)) := by
  rw [add_multiple_line_chart, recode,
    show melt data x y = y.flatMap (fun c => data.map (fun r => (⟨r x, c, r c⟩ : LongRow))) from rfl,
    List.map_flatMap]
  unfold List.flatMap
  congr 1
  apply List.map_congr_left
  intro a _
  rw [List.map_map]
  rfl

lemma blocks_zip (data : Table) (x : String) :
    ∀ (y codes : List String), y.Nodup → y.length = codes.length →
      y.flatMap (fun c => data.map (fun r => (⟨r x, replaceDict (y.zip codes) c, r c⟩ : LongRow)))
        = (y.zip codes).flatMap (fun p => data.map (fun r => ⟨r x, p.2, r p.1⟩)) := by
  intro y
  induction y with
  | nil => intro codes _ _; rfl
  | cons c ys ih =>
    intro codes hnd hlen
    cases codes with
    | nil => simp at hlen
    | cons l ls =>
      rw [List.zip_cons_cons, List.flatMap_cons, List.flatMap_cons]
      have hnd' := List.nodup_cons.mp hnd
      have hlen' : ys.length = ls.length := by simpa using hlen
      congr 1
      · rw [replaceDict_head]
      · rw [← ih ls hnd'.2 hlen']
        unfold List.flatMap
        congr 1
        apply List.map_congr_left
        intro a ha
        rw [replaceDict_tail c l a (ys.zip ls) (fun hac => hnd'.1 (hac ▸ ha))]

/-- Claim C10: the long-form output of the multi-column reshape is ordered
column-major — one block per source column, in the order the columns are
listed, each block containing the rows of the input table in their original
order (with the block's melted name recoded through the dict). -/
theorem reshape_column_major (data : Table) (x : String) (y codes : List String) :
    add_multiple_line_chart data x y codes
      = y.flatMap (fun c => data.map (fun r => ⟨r x, replaceDict (y.zip codes) c, r c⟩)) :=
  add_multiple_blocks data x y codes

/-- Claim C1: the recoding of melted column names is an exact, whole-name
lookup — for a spec whose source columns are distinct and paired 1:1 with
labels, every long-form row derived from column `cᵢ` carries exactly the
paired label `codesᵢ`, regardless of columns whose names are prefixes of one
another and independent of order. -/
theorem reshape_label_exact_lookup (data : Table) (x : String) (y codes : List String)
    (hnd : y.Nodup) (hlen : y.length = codes.length) :
    add_multiple_line_chart data x y codes
      = (y.zip codes).flatMap (fun p => data.map (fun r => ⟨r x, p.2, r p.1⟩)) := by
  rw [add_multiple_blocks, blocks_zip data x y codes hnd hlen]

/-- Witness for C1 on the population columns, whose names are prefixes of one
another (`TotalPopulation` vs `PopulationM`/`PopulationF`), as recoded at
lines 200-208. -/
theorem reshape_label_exact_lookup_witness :
    (["TotalPopulation", "PopulationF", "PopulationM"] : List String).Nodup ∧
    add_multiple_line_chart scenarioTable "Year"
        ["TotalPopulation", "PopulationF", "PopulationM"] ["Total", "Female", "Male"]
      = ((["TotalPopulation", "PopulationF", "PopulationM"] : List String).zip
          ["Total", "Female", "Male"]).flatMap
          (fun p => scenarioTable.map (fun r => ⟨r "Year", p.2, r p.1⟩)) :=
  ⟨by decide,
    reshape_label_exact_lookup scenarioTable "Year"
      ["TotalPopulation", "PopulationF", "PopulationM"] ["Total", "Female", "Male"]
      (by decide) (by decide)⟩

/-- Claim C4: for a two-column spec with distinct columns and distinct labels,
the reshape yields exactly `2 * len(T)` long-form rows, and filtering the
long form to the first label and projecting back to `(Year, value)`
reproduces `T[['Year', c1]]` exactly. -/
theorem reshape_roundtrip (T : Table) (c1 c2 l1 l2 : String)
    (hc : c1 ≠ c2) (hl : l1 ≠ l2) :
    (add_multiple_line_chart T "Year" [c1, c2] [l1, l2]).length = 2 * T.length ∧
    ((add_multiple_line_chart T "Year" [c1, c2] [l1, l2]).filter
        (fun lr => lr.var == l1)).map (fun lr => (lr.x, lr.value))
      = T.map (fun r => (r "Year", r c1)) := by
  have hnd : ([c1, c2] : List String).Nodup := by simp [hc]
  have h : add_multiple_line_chart T "Year" [c1, c2] [l1, l2]
      = T.map (fun r => (⟨r "Year", l1, r c1⟩ : LongRow))
        ++ T.map (fun r => (⟨r "Year", l2, r c2⟩ : LongRow)) := by
    rw [add_multiple_blocks, blocks_zip T "Year" [c1, c2] [l1, l2] hnd rfl]
    simp [List.flatMap_cons, List.flatMap_nil]
  constructor
  · rw [h, List.length_append, List.length_map, List.length_map]
    ring
  · rw [h, List.filter_append]
    have h1 : (T.map (fun r => (⟨r "Year", l1, r c1⟩ : LongRow))).filter
        (fun lr => lr.var == l1) = T.map (fun r => (⟨r "Year", l1, r c1⟩ : LongRow)) := by
      rw [List.filter_eq_self]
      intro a ha
      obtain ⟨r, _, rfl⟩ := List.mem_map.mp ha
      simp
    have h2 : (T.map (fun r => (⟨r "Year", l2, r c2⟩ : LongRow))).filter
        (fun lr => lr.var == l1) = [] := by
      rw [List.filter_eq_nil_iff]
      intro a ha
      obtain ⟨r, _, rfl⟩ := List.mem_map.mp ha
      simp [hl.symm]
    rw [h1, h2, List.append_nil, List.map_map]
    rfl

/-- Witness for C4 on the PLHIV gender columns with their labels. -/
theorem reshape_roundtrip_witness :
    ("NumberPositiveM" : String) ≠ "NumberPositiveF" ∧ ("Men" : String) ≠ "Women" ∧
    ((add_multiple_line_chart scenarioTable "Year"
        ["NumberPositiveM", "NumberPositiveF"] ["Men", "Women"]).length
      = 2 * scenarioTable.length ∧
    ((add_multiple_line_chart scenarioTable "Year"
        ["NumberPositiveM", "NumberPositiveF"] ["Men", "Women"]).filter
        (fun lr => lr.var == "Men")).map (fun lr => (lr.x, lr.value))
      = scenarioTable.map (fun r => (r "Year", r "NumberPositiveM"))) :=
  ⟨by decide, by decide,
    reshape_roundtrip scenarioTable "NumberPositiveM" "NumberPositiveF" "Men" "Women"
      (by decide) (by decide)⟩

/-- Lines 41-42: `all_files = sorted(os.listdir(output_dir))` and
`popart_files = [f for f in all_files if ".csv" in f]`.  The directory
listing is an arbitrary list of filenames; Python's `sorted` is modelled by
`mergeSort` under the lexicographic order on strings, and `".csv" in f` is
case-sensitive substring containment. -/
def popart_files (all_files : List String) : List String :=
  (all_files.mergeSort (fun a b => decide (a ≤ b))).filter
    (fun f => decide ((".csv" : String).toList <:+: f.toList))

/-- Claim C9: a directory entry is kept by the catalog lister precisely when
`.csv` occurs as a (case-sensitive) substring anywhere in the filename — not
only as a trailing extension. -/
theorem popart_files_mem (files : List String) (f : String) :
    f ∈ popart_files files ↔ f ∈ files ∧ (".csv" : String).toList <:+: f.toList := by
  rw [popart_files, List.mem_filter, List.mem_mergeSort]
  simp

/-- Witness for C9: a filename whose `.csv` occurrence is not a trailing
extension is nevertheless listed. -/
theorem popart_files_mem_witness :
    "run1.csv.bak" ∈ popart_files ["run1.csv.bak"] :=
  (popart_files_mem ["run1.csv.bak"] "run1.csv.bak").mpr ⟨by simp, by decide⟩
